import Mathlib

/-!
Verification of the scout-prod resilient data-resolution layer.

This file gives a shallow embedding, in Lean, of the data-resolution code of
the scout-prod repository and proves the specified properties about it.
Embedded components:

* `parseCSV`, the CSV parser of `src/services/dataLakeService.ts`;
* the TTL cache (`getFromCache` / `setCache`) and `fetchCSV` of the same file;
* `getTransactionData` (the client-side relational join);
* `calculateKPIMetrics` (KPI aggregation);
* `getCustomerBehavior` (customer segmentation);
* the cascading filter store `setFilter` of `src/stores/filterStore.ts`;
* the platform configuration `getPlatformConfig` of `src/config/api.ts`;
* the source-selector state machine (modelled from the spec, as its
  implementation is not part of the sources; only its `ServiceStatus`
  consumers are).

JavaScript numbers are modelled as rationals (ℚ); `NaN` outcomes, where they
can arise (the per-segment average of an empty segment), are modelled with
`Option ℚ` (`none` = NaN).  JS strings are modelled as `String` /
`List Char`.
-/

namespace Scout

/-! ### JavaScript string primitives -/

/-- The whitespace characters trimmed by JS `String.prototype.trim`
(restricted to the ASCII range: space, tab, newline, carriage return,
vertical tab, form feed). -/
def jsWhitespace (c : Char) : Bool :=
  c == ' ' || c == '\t' || c == '\n' || c == '\r' || c == Char.ofNat 11 || c == Char.ofNat 12

/-- JS `text.trim()` on a character list. -/
def jsTrim (l : List Char) : List Char :=
  ((l.dropWhile jsWhitespace).reverse.dropWhile jsWhitespace).reverse

/-- JS `text.split(sep)` for a one-character separator: `"".split` yields
`[""]`, and a trailing separator yields a trailing empty field. -/
def splitOnChar (sep : Char) : List Char → List (List Char)
  | [] => [[]]
  | c :: cs =>
    let r := splitOnChar sep cs
    if c == sep then [] :: r
    else
      match r with
      | [] => [[c]]
      | h :: t => (c :: h) :: t

/-- The double-quote character (written via its code point). -/
def quoteChar : Char := Char.ofNat 34

/-- JS `value.replace(/"/g, '')`: drop every double quote. -/
def removeQuotes (l : List Char) : List Char :=
  l.filter (fun c => !(c == quoteChar))

/-- Value of a list of decimal digits read left to right. -/
def digitsToNat (l : List Char) : ℕ :=
  l.foldl (fun a c => a * 10 + (c.toNat - 48)) 0

/-- Digit-level part of the JS `Number(value)` parse: sign, integer part,
fractional digits value, and number of fractional digits; `none` models
`NaN`.  The empty (trimmed) string parses as 0. -/
def jsNumParse : List Char → Option (Bool × ℕ × ℕ × ℕ)
  | [] => some (false, 0, 0, 0)
  | l =>
    let sr : Bool × List Char :=
      match l with
      | '+' :: r => (false, r)
      | '-' :: r => (true, r)
      | r => (false, r)
    let intPart := sr.2.takeWhile (fun c => c.isDigit)
    let rest := sr.2.dropWhile (fun c => c.isDigit)
    match rest with
    | [] => if intPart.isEmpty then none else some (sr.1, digitsToNat intPart, 0, 0)
    | '.' :: frac =>
      if frac.all (fun c => c.isDigit) && !(intPart.isEmpty && frac.isEmpty) then
        some (sr.1, digitsToNat intPart, digitsToNat frac, frac.length)
      else none
    | _ => none

/-- JS `Number(value)` on the strings produced by the CSV pipeline, as a
partial numeric parse: `none` models `NaN`.  A whitespace-only string is `0`;
otherwise an optional sign followed by decimal digits with an optional
fractional part (the JS grammar cases not reachable from this code base —
exponents, hex, `Infinity` — are mapped to `NaN`; the parser only ever feeds
the result through an `isNaN` guard). -/
def jsNumberQ (s : String) : Option ℚ :=
  (jsNumParse (jsTrim s.toList)).map
    (fun t => (if t.1 then -1 else 1) * ((t.2.1 : ℚ) + (t.2.2.1 : ℚ) / (10 ^ t.2.2.2 : ℚ)))

/-- JS `haystack.includes(needle)` helper: prefix test on character lists. -/
def startsWithList : List Char → List Char → Bool
  | [], _ => true
  | _ :: _, [] => false
  | a :: as, b :: bs => a == b && startsWithList as bs

/-- JS `haystack.includes(needle)` helper: substring test on character lists. -/
def containsList (pat : List Char) : List Char → Bool
  | [] => pat.isEmpty
  | c :: t => startsWithList pat (c :: t) || containsList pat t

/-- JS `s.includes(pat)`. -/
def jsIncludes (s pat : String) : Bool :=
  containsList pat.toList s.toList

/-! ### Dynamic values, rows, and JS `Map` / object semantics -/

/-- A CSV cell / object property value: JS `string | number`. -/
inductive Value where
  | str : String → Value
  | num : ℚ → Value
deriving DecidableEq, Repr

/-- A parsed CSV row: a JS object, modelled as an association list in
insertion order with unique keys. -/
abbrev Row := List (String × Value)

/-- JS property read `row[key]`: `none` models `undefined`. -/
def rowGet (r : Row) (k : String) : Option Value :=
  (r.find? (fun p => p.1 == k)).map (fun p => p.2)

/-- JS property write `row[key] = v`: overwrite in place if the key exists,
else append (insertion order). -/
def objSet (r : Row) (k : String) (v : Value) : Row :=
  if r.any (fun p => p.1 == k) then r.map (fun p => if p.1 == k then (k, v) else p)
  else r ++ [(k, v)]

/-- JS `Map.prototype.set` on an association list kept in insertion order. -/
def mapSet {κ α : Type} [BEq κ] (m : List (κ × α)) (k : κ) (v : α) : List (κ × α) :=
  if m.any (fun p => p.1 == k) then m.map (fun p => if p.1 == k then (k, v) else p)
  else m ++ [(k, v)]

/-- JS `Map.prototype.get` on an association list with unique keys. -/
def assocGet {κ α : Type} [BEq κ] (m : List (κ × α)) (k : κ) : Option α :=
  (m.find? (fun p => p.1 == k)).map (fun p => p.2)

/-- JS `new Map(entries).get(k)`: with duplicate keys the last entry wins,
so look from the right. -/
def mapGet {κ α : Type} [BEq κ] (entries : List (κ × α)) (k : κ) : Option α :=
  (entries.reverse.find? (fun p => p.1 == k)).map (fun p => p.2)

/-! ### `parseCSV` (dataLakeService.ts, lines 50-71) -/

/-- The value stored for column `i` of a data line:
`const value = values[index] || ''; isNaN(Number(value)) ? value : Number(value)`.
A missing cell (`values[index]` is `undefined`) and an empty cell both take
the `''` branch, and `Number('') = 0`. -/
def cellValue (values : List String) (i : ℕ) : Value :=
  let value := values.getD i ""
  match jsNumberQ value with
  | some q => Value.num q
  | none => Value.str value

/-- `headers.forEach((header, index) => { row[header] = ... })`. -/
def buildRowAux (values : List String) : ℕ → Row → List String → Row
  | _, row, [] => row
  | i, row, h :: hs => buildRowAux values (i + 1) (objSet row h (cellValue values i)) hs

/-- Build one parsed row from the header list and the split cell values. -/
def buildRow (headers values : List String) : Row :=
  buildRowAux values 0 [] headers

/-- One comma-split, trimmed, quote-stripped field list of a line. -/
def splitFields (line : List Char) : List String :=
  (splitOnChar ',' line).map (fun v => String.mk (removeQuotes (jsTrim v)))

/-- `parseCSV` of dataLakeService.ts: trim, split into lines, first line is
the header; fewer than two lines yields an empty table.  Total — no input
raises an error. -/
def parseCSV (csvText : String) : List Row :=
  let lines := splitOnChar '\n' (jsTrim csvText.toList)
  if lines.length < 2 then []
  else
    let headers := splitFields (lines.headD [])
    (lines.drop 1).map (fun line => buildRow headers (splitFields line))

/-! ### The TTL cache and `fetchCSV` (dataLakeService.ts, lines 74-127) -/

/-- One cache entry: `{ data, timestamp, ttl }` (ttl in milliseconds). -/
structure CacheEntry where
  data : List Row
  timestamp : ℚ
  ttl : ℚ
deriving DecidableEq

/-- The service's private `cache : Map<string, CacheEntry>`. -/
abbrev Cache := List (String × CacheEntry)

/-- JS `Map.prototype.delete`. -/
def cacheDelete (c : Cache) (k : String) : Cache :=
  c.filter (fun p => !(p.1 == k))

/-- `getFromCache`: a valid entry (now − timestamp < ttl) is returned;
otherwise the key is deleted and `null` returned.  Returns the result and
the updated cache. -/
def getFromCache (c : Cache) (k : String) (now : ℚ) : Option (List Row) × Cache :=
  match assocGet c k with
  | some e => if now - e.timestamp < e.ttl then (some e.data, c) else (none, cacheDelete c k)
  | none => (none, cacheDelete c k)

/-- `setCache(key, data, ttlMinutes)`: store with `ttl = ttlMinutes*60*1000`. -/
def setCache (c : Cache) (k : String) (d : List Row) (ttlMinutes : ℚ) (now : ℚ) : Cache :=
  mapSet c k { data := d, timestamp := now, ttl := ttlMinutes * 60 * 1000 }

/-- `fetchCSV(filename)`: consult the cache under key `csv_<filename>`; on a
miss, fetch the blob (`network` abstracts the axios GET — `none` is a thrown
network/auth error), parse it, and cache the rows for 15 minutes.  The third
component records whether network I/O was performed. -/
def fetchCSV (network : String → Option String) (filename : String) (now : ℚ)
    (c : Cache) : Option (List Row) × Cache × Bool :=
  let cacheKey := "csv_" ++ filename
  let hit := getFromCache c cacheKey now
  match hit.1 with
  | some d => (some d, hit.2, false)
  | none =>
    match network filename with
    | some text =>
      let d := parseCSV text
      (some d, setCache hit.2 cacheKey d 15 now, true)
    | none => (none, hit.2, true)

/-! ### `getTransactionData` (dataLakeService.ts, lines 130-168) -/

/-- One joined transaction item: the item row spread together with its
resolved product (`productMap.get(item.product_id) || null`). -/
structure EnrichedItem where
  base : Row
  product : Option Row
deriving DecidableEq, Repr

/-- One enriched transaction: the transaction row spread together with its
customer, store and item list. -/
structure EnrichedTx where
  base : Row
  customer : Option Row
  store : Option Row
  items : List EnrichedItem
deriving DecidableEq, Repr

/-- `getTransactionData` joins the five tables: lookup maps keyed by
`customer_id`/`store_id`/`product_id`, then for each transaction, the items
with equal `transaction_id` and the two dimension lookups (`|| null`). -/
def getTransactionData (transactions transactionItems customers stores products : List Row) :
    List EnrichedTx :=
  let customerMap := customers.map (fun c => (rowGet c "customer_id", c))
  let storeMap := stores.map (fun s => (rowGet s "store_id", s))
  let productMap := products.map (fun p => (rowGet p "product_id", p))
  transactions.map (fun t =>
    let items := transactionItems.filter
      (fun item => rowGet item "transaction_id" == rowGet t "transaction_id")
    { base := t
      customer := mapGet customerMap (rowGet t "customer_id")
      store := mapGet storeMap (rowGet t "store_id")
      items := items.map (fun item =>
        { base := item, product := mapGet productMap (rowGet item "product_id") }) })

/-! ### `calculateKPIMetrics` (dataLakeService.ts, lines 171-210) -/

/-- JS `Math.round`: round half towards positive infinity. -/
def jsRound (q : ℚ) : ℤ :=
  ⌊q + 1 / 2⌋

/-- `Math.round(q * 100) / 100`: round to two decimals. -/
def round2 (q : ℚ) : ℚ :=
  (jsRound (q * 100) : ℚ) / 100

/-- `Number(x) || 0` on a property read: a number stays itself, a
non-numeric string (`NaN`) and `undefined` (`NaN`) become 0, a numeric
string its value. -/
def toNum0 (v : Option Value) : ℚ :=
  match v with
  | some (Value.num q) => q
  | some (Value.str s) =>
    match jsNumberQ s with
    | some q => q
    | none => 0
  | none => 0

/-- `Number(t.total_amount) || 0`. -/
def txAmount (t : EnrichedTx) : ℚ :=
  toNum0 (rowGet t.base "total_amount")

/-- `new Date(t.transaction_date).getTime()`, abstracted: `getTime`
interprets the raw `transaction_date` property as a millisecond timestamp. -/
def txTime (getTime : Option Value → ℚ) (t : EnrichedTx) : ℚ :=
  getTime (rowGet t.base "transaction_date")

/-- Stable insertion of `x` into `l`: `x` is placed before the first element
strictly greater than it under `le`. -/
def insertLe {α : Type} (le : α → α → Bool) (x : α) : List α → List α
  | [] => [x]
  | y :: ys => if le x y && !(le y x) then x :: y :: ys else y :: insertLe le x ys

/-- Stable sort by repeated insertion.  For a comparator that is a total
preorder this produces the same output as JS `Array.prototype.sort`
(specified stable), since a stable sort is unique. -/
def jsSortStable {α : Type} (le : α → α → Bool) (l : List α) : List α :=
  l.foldl (fun acc x => insertLe le x acc) []

/-- `transactions.sort((a, b) => new Date(b.transaction_date).getTime() - new Date(a.transaction_date).getTime())`:
the enriched transactions sorted by timestamp descending (JS sort is
stable). -/
def sortedByDateDesc (getTime : Option Value → ℚ) (txs : List EnrichedTx) : List EnrichedTx :=
  jsSortStable (fun a b => decide (txTime getTime b ≤ txTime getTime a)) txs

/-- The `KPIData` shape of types/index.ts, values as JS numbers. -/
structure KPIData where
  total_sales : ℚ
  transaction_count : ℕ
  avg_basket_size : ℚ
  growth_rate : ℚ
deriving DecidableEq, Repr

/-- `calculateKPIMetrics` on the enriched transactions: total sales, count,
average basket (2 decimals), and growth rate by sorting on the timestamp
descending (`(a, b) => dateB - dateA`), halving at `floor(n/2)` and
comparing half revenues; `none` models the error thrown on an empty list. -/
def calculateKPIMetrics (getTime : Option Value → ℚ) (txs : List EnrichedTx) : Option KPIData :=
  if txs.length = 0 then none
  else
    let totalSales := txs.foldl (fun sum t => sum + txAmount t) 0
    let transactionCount := txs.length
    let avgBasketSize := totalSales / (transactionCount : ℚ)
    let sorted := sortedByDateDesc getTime txs
    let recent := sorted.take (txs.length / 2)
    let older := sorted.drop (txs.length / 2)
    let recentRevenue := recent.foldl (fun sum t => sum + txAmount t) 0
    let olderRevenue := older.foldl (fun sum t => sum + txAmount t) 0
    let growthRate := if olderRevenue > 0 then (recentRevenue - olderRevenue) / olderRevenue * 100 else 0
    some { total_sales := (jsRound totalSales : ℚ)
           transaction_count := transactionCount
           avg_basket_size := round2 avgBasketSize
           growth_rate := round2 growthRate }

/-! ### `getCustomerBehavior` (dataLakeService.ts, lines 264-323) -/

/-- One accumulated entry of the `customerSpend` map. -/
structure CustAgg where
  totalSpend : ℚ
  transactionCount : ℕ
  customer : Option Row
deriving DecidableEq, Repr

/-- `t.customer_id`, the grouping key. -/
def custKey (t : EnrichedTx) : Option Value :=
  rowGet t.base "customer_id"

/-- The `customerSpend` map: group the enriched transactions by
`customer_id` (first-seen insertion order), accumulating total spend and
transaction count; the `customer` field is taken from the first transaction
of the group. -/
def customerSpendMap (txs : List EnrichedTx) : List (Option Value × CustAgg) :=
  txs.foldl
    (fun m t =>
      let m1 :=
        if (assocGet m (custKey t)).isNone then
          m ++ [(custKey t, { totalSpend := 0, transactionCount := 0, customer := t.customer })]
        else m
      match assocGet m1 (custKey t) with
      | some a =>
        mapSet m1 (custKey t)
          { a with totalSpend := a.totalSpend + toNum0 (rowGet t.base "total_amount")
                   transactionCount := a.transactionCount + 1 }
      | none => m1)
    []

/-- `Array.from(customerSpend.values())`. -/
def customersOf (txs : List EnrichedTx) : List CustAgg :=
  (customerSpendMap txs).map (fun p => p.2)

/-- `avgSpend = customers.reduce((sum, c) => sum + c.totalSpend, 0) / customers.length`. -/
def avgSpendOf (txs : List EnrichedTx) : ℚ :=
  ((customersOf txs).foldl (fun sum c => sum + c.totalSpend) 0) / ((customersOf txs).length : ℚ)

/-- `'Premium Buyers': customers.filter(c => c.totalSpend > avgSpend * 2).length`. -/
def premiumCount (txs : List EnrichedTx) : ℕ :=
  ((customersOf txs).filter (fun c => decide (c.totalSpend > avgSpendOf txs * 2))).length

/-- `'Regular Customers': customers.filter(c => c.totalSpend > avgSpend && c.totalSpend <= avgSpend * 2).length`. -/
def regularCount (txs : List EnrichedTx) : ℕ :=
  ((customersOf txs).filter
    (fun c => decide (c.totalSpend > avgSpendOf txs) && decide (c.totalSpend ≤ avgSpendOf txs * 2))).length

/-- `'Occasional Shoppers': customers.filter(c => c.totalSpend <= avgSpend).length`. -/
def occasionalCount (txs : List EnrichedTx) : ℕ :=
  ((customersOf txs).filter (fun c => decide (c.totalSpend ≤ avgSpendOf txs))).length

/-- The per-segment average spend
`Math.round(customers.filter(pred).reduce((s, c) => s + c.totalSpend, 0) / count)`:
with `count = 0` the filtered sum is 0 and JS computes `0/0 = NaN`
(`Math.round(NaN) = NaN`), modelled as `none`. -/
def segmentAvg (txs : List EnrichedTx) (pred : CustAgg → Bool) (count : ℕ) : Option ℚ :=
  if count = 0 then none
  else some ((jsRound ((((customersOf txs).filter pred).foldl (fun sum c => sum + c.totalSpend) 0) / (count : ℚ)) : ℚ))

/-- One entry of the reported `segmentData`. -/
structure SegmentData where
  segment : String
  percentage : ℚ
  avgSpend : Option ℚ
deriving DecidableEq, Repr

/-- `Math.round((count / totalCustomers) * 100)`. -/
def segmentPercentage (count totalCustomers : ℕ) : ℚ :=
  (jsRound ((count : ℚ) / (totalCustomers : ℚ) * 100) : ℚ)

/-- The object returned by `getCustomerBehavior`. -/
structure BehaviorResult where
  segments : List SegmentData
  totalCustomers : ℕ
  avgSpend : ℚ
deriving DecidableEq, Repr

/-- `getCustomerBehavior`: segment the grouped customers at `avgSpend` and
`2 * avgSpend`; `none` models the error thrown on an empty transaction
list.  The three segments appear in object insertion order. -/
def getCustomerBehavior (txs : List EnrichedTx) : Option BehaviorResult :=
  if txs.length = 0 then none
  else
    let total := (customersOf txs).length
    some
      { segments :=
          [ { segment := "Premium Buyers"
              percentage := segmentPercentage (premiumCount txs) total
              avgSpend := segmentAvg txs (fun c => decide (c.totalSpend > avgSpendOf txs * 2)) (premiumCount txs) }
          , { segment := "Regular Customers"
              percentage := segmentPercentage (regularCount txs) total
              avgSpend := segmentAvg txs
                (fun c => decide (c.totalSpend > avgSpendOf txs) && decide (c.totalSpend ≤ avgSpendOf txs * 2))
                (regularCount txs) }
          , { segment := "Occasional Shoppers"
              percentage := segmentPercentage (occasionalCount txs) total
              avgSpend := segmentAvg txs (fun c => decide (c.totalSpend ≤ avgSpendOf txs)) (occasionalCount txs) } ]
        totalCustomers := total
        avgSpend := (jsRound (avgSpendOf txs) : ℚ) }

/-! ### The cascading filter store (filterStore.ts) -/

/-- The fifteen filter fields of `FilterState`; each is nullable, and the
dynamic write `{ ...state, [key]: value }` is untyped, so every field holds
an `Option Value`. -/
structure FilterState where
  region : Option Value
  city : Option Value
  municipality : Option Value
  barangay : Option Value
  holding_company : Option Value
  client : Option Value
  category : Option Value
  brand : Option Value
  sku : Option Value
  year : Option Value
  quarter : Option Value
  month : Option Value
  week : Option Value
  day : Option Value
  hour : Option Value
deriving DecidableEq, Repr

/-- The filter field names accepted by `setFilter`. -/
inductive FilterKey where
  | region | city | municipality | barangay
  | holding_company | client | category | brand | sku
  | year | quarter | month | week | day | hour
deriving DecidableEq, Repr

/-- `{ ...state, [key]: value }`. -/
def writeKey (k : FilterKey) (v : Option Value) (s : FilterState) : FilterState :=
  match k with
  | .region => { s with region := v }
  | .city => { s with city := v }
  | .municipality => { s with municipality := v }
  | .barangay => { s with barangay := v }
  | .holding_company => { s with holding_company := v }
  | .client => { s with client := v }
  | .category => { s with category := v }
  | .brand => { s with brand := v }
  | .sku => { s with sku := v }
  | .year => { s with year := v }
  | .quarter => { s with quarter := v }
  | .month => { s with month := v }
  | .week => { s with week := v }
  | .day => { s with day := v }
  | .hour => { s with hour := v }

/-- `const geographyLevels = ['region', 'city', 'municipality', 'barangay']`. -/
def geographyLevels : List FilterKey :=
  [.region, .city, .municipality, .barangay]

/-- `const organizationLevels = ['holding_company', 'client', 'category', 'brand', 'sku']`. -/
def organizationLevels : List FilterKey :=
  [.holding_company, .client, .category, .brand, .sku]

/-- `levels.slice(i + 1).forEach(level => newState[level] = null)`. -/
def clearKeys (ks : List FilterKey) (s : FilterState) : FilterState :=
  ks.foldl (fun st k => writeKey k none st) s

/-- `setFilter(key, value)`: assign the field, then null every later level
of whichever hierarchy (geography / organization) contains the key. -/
def setFilter (k : FilterKey) (v : Option Value) (s : FilterState) : FilterState :=
  let s1 := writeKey k v s
  let s2 :=
    match geographyLevels.findIdx? (fun x => x == k) with
    | some i => clearKeys (geographyLevels.drop (i + 1)) s1
    | none => s1
  match organizationLevels.findIdx? (fun x => x == k) with
  | some i => clearKeys (organizationLevels.drop (i + 1)) s2
  | none => s2

/-- The geography hierarchy slot at index `i`. -/
def geoGet (s : FilterState) (i : Fin 4) : Option Value :=
  [s.region, s.city, s.municipality, s.barangay].get i

/-- The organization hierarchy slot at index `i`. -/
def orgGet (s : FilterState) (i : Fin 5) : Option Value :=
  [s.holding_company, s.client, s.category, s.brand, s.sku].get i

/-- The geography key at index `i` (the entries of `geographyLevels`). -/
def geoKey (i : Fin 4) : FilterKey :=
  [FilterKey.region, FilterKey.city, FilterKey.municipality, FilterKey.barangay].get i

/-- The organization key at index `i` (the entries of `organizationLevels`). -/
def orgKey (i : Fin 5) : FilterKey :=
  [FilterKey.holding_company, FilterKey.client, FilterKey.category, FilterKey.brand,
   FilterKey.sku].get i

/-- The six time fields agree between two states. -/
def timeEq (s t : FilterState) : Prop :=
  s.year = t.year ∧ s.quarter = t.quarter ∧ s.month = t.month ∧
  s.week = t.week ∧ s.day = t.day ∧ s.hour = t.hour

/-! ### The source-selector state machine

Modelled from the spec: the SourceSelector orchestrator (the hybrid service
exposing `getServiceStatus`) is not among the sources — only its
`ServiceStatus` interface and its callers (`RetailBot.tsx`,
`ContextDisplay.tsx`) are — so its per-call transition rules are taken from
the specification's §4.4 transition table. -/

/-- The three values of the exposed `currentDataSource` field. -/
inductive DataSource where
  | azureApi
  | dataLake
  | mock
deriving DecidableEq, Repr

/-- Modelled from the spec: the orchestrator state — current mode,
consecutive-failure counter, sticky fallback flag. -/
structure SourceState where
  currentDataSource : DataSource
  consecutiveFailures : ℕ
  fallbackFlag : Bool
deriving DecidableEq, Repr

/-- Modelled from the spec: a primary-call failure increments the counter;
if it reaches 3 or the failure is fatal-class (NetworkError/ServerError),
the sticky flag is set and the data lake is attempted (`dataLakeOk` says
whether that attempt succeeds, else the static fallback answers). -/
def primaryFailure (fatal dataLakeOk : Bool) (s : SourceState) : SourceState :=
  let n := s.consecutiveFailures + 1
  if 3 ≤ n ∨ fatal = true then
    { currentDataSource := if dataLakeOk then DataSource.dataLake else DataSource.mock
      consecutiveFailures := n
      fallbackFlag := true }
  else
    { s with consecutiveFailures := n }

/-- Modelled from the spec: any successful primary call resets the counter
to 0, clears the flag, and returns to the primary mode. -/
def primarySuccess (_s : SourceState) : SourceState :=
  { currentDataSource := DataSource.azureApi
    consecutiveFailures := 0
    fallbackFlag := false }

/-! ### Platform configuration (config/api.ts) -/

/-- `detectPlatform()`: classify `window.location.hostname` (`none` models
`typeof window === 'undefined'`). -/
def detectPlatform (hostname : Option String) : String :=
  match hostname with
  | none => "server"
  | some h =>
    if jsIncludes h "netlify.app" then "netlify"
    else if jsIncludes h "vercel.app" then "vercel"
    else if jsIncludes h "azurestaticapps.net" then "azure-swa"
    else if jsIncludes h "azurewebsites.net" then "azure-app-service"
    else if h == "localhost" || h == "127.0.0.1" then "local"
    else "unknown"

/-- The hostname-based part of `getApiBaseUrl()` (the branch taken when no
environment override is present and a `window` exists; the final return is
the `none` case). -/
def platformUrlOf (hostname : Option String) : String :=
  match hostname with
  | some h =>
    if jsIncludes h "netlify.app" then "https://scout-analytics-api.azurewebsites.net"
    else if jsIncludes h "vercel.app" then "https://scout-analytics-api.azurewebsites.net"
    else if jsIncludes h "azurewebsites.net" || jsIncludes h "azurestaticapps.net" then
      "https://scout-analytics-api.azurewebsites.net"
    else if h == "localhost" || h == "127.0.0.1" then "http://localhost:5000"
    else "https://scout-analytics-api.azurewebsites.net"
  | none => "https://scout-analytics-api.azurewebsites.net"

/-- `getApiBaseUrl()`: the `VITE_API_URL` environment override wins when set
and truthy (a present-but-empty variable is falsy in JS). -/
def getApiBaseUrl (envApiUrl : Option String) (hostname : Option String) : String :=
  match envApiUrl with
  | some u => if u == "" then platformUrlOf hostname else u
  | none => platformUrlOf hostname

/-- The `features` object of the platform configuration. -/
structure PlatformFeatures where
  hybridAPI : Bool
  mockFallback : Bool
  realTimeData : Bool
  azureIntegration : Bool
  platformDetection : Bool
deriving DecidableEq, Repr

/-- The `analytics` object of the platform configuration. -/
structure PlatformAnalytics where
  enabled : Bool
  platform : String
  environment : String
deriving DecidableEq, Repr

/-- The object returned by `getPlatformConfig()`. -/
structure PlatformConfig where
  platform : String
  apiUrl : String
  isProduction : Bool
  supportsAzureAPI : Bool
  supportsStaticSite : Bool
  timeout : ℕ
  retries : ℕ
  retryDelay : ℕ
  features : PlatformFeatures
  analytics : PlatformAnalytics
deriving DecidableEq, Repr

/-- `getPlatformConfig()`: notably `timeout: isNetlify ? 15000 : 10000` and
`retries: 3`.  `envApiUrl` and `envMode` model `VITE_API_URL` and `MODE`. -/
def getPlatformConfig (envApiUrl envMode : Option String) (hostname : Option String) :
    PlatformConfig :=
  let platform := detectPlatform hostname
  let isNetlify := platform == "netlify"
  let isLocal := platform == "local"
  { platform := platform
    apiUrl := getApiBaseUrl envApiUrl hostname
    isProduction := !(platform == "local")
    supportsAzureAPI := true
    supportsStaticSite := ["netlify", "vercel", "azure-swa"].contains platform
    timeout := if isNetlify then 15000 else 10000
    retries := 3
    retryDelay := 1000
    features :=
      { hybridAPI := true
        mockFallback := true
        realTimeData := !isLocal
        azureIntegration := true
        platformDetection := true }
    analytics :=
      { enabled := !(platform == "local")
        platform := platform
        environment :=
          match envMode with
          | some m => if m == "" then "production" else m
          | none => "production" } }

/-! ### Concrete inputs used to instantiate the theorems -/

/-- Timestamp interpretation used on numeric `transaction_date` cells:
`new Date(n).getTime() = n` for a finite number `n`. -/
def dateNumVal : Option Value → ℚ
  | some (Value.num q) => q
  | _ => 0

/-- A minimal enriched transaction with the two fields the KPI computation
reads. -/
def mkTx (amount date : ℚ) : EnrichedTx :=
  { base := [("total_amount", Value.num amount), ("transaction_date", Value.num date)]
    customer := none, store := none, items := [] }

/-- The spec's KPI test vector: amounts 100, 200, 300, 400 with strictly
increasing timestamps. -/
def txKpiExample : List EnrichedTx :=
  [mkTx 100 1, mkTx 200 2, mkTx 300 3, mkTx 400 4]

/-- A single transaction with the fractional amount 1/2. -/
def txHalf : List EnrichedTx :=
  [mkTx (1 / 2) 1]

/-- A minimal enriched transaction with a customer id and an amount. -/
def mkCustTx (cid : String) (amount : ℚ) : EnrichedTx :=
  { base := [("customer_id", Value.str cid), ("total_amount", Value.num amount)]
    customer := none, store := none, items := [] }

/-- One customer spending 100: its segment map has two empty segments. -/
def txOneCustomer : List EnrichedTx :=
  [mkCustTx "c1" 100]

/-- Two customers with positive spends 10 and 30 (average 20). -/
def txTwoCustomers : List EnrichedTx :=
  [mkCustTx "c1" 10, mkCustTx "c2" 30]

/-- Two customers with negative spends -15 and -5 (average -10): the
segment boundaries overlap below zero. -/
def txNegCustomers : List EnrichedTx :=
  [mkCustTx "c1" (-15), mkCustTx "c2" (-5)]

/-- A network stub returning a fixed two-line CSV blob for every file. -/
def netW : String → Option String :=
  fun _ => some "a,b\n1,2"

/-- A transaction row for the join example. -/
def tRow : Row :=
  [("transaction_id", Value.str "t1"), ("customer_id", Value.str "c1"),
   ("store_id", Value.str "s9")]

/-- An item row matching `tRow`. -/
def iRow1 : Row :=
  [("transaction_id", Value.str "t1"), ("product_id", Value.str "p1")]

/-- An item row not matching `tRow`. -/
def iRow2 : Row :=
  [("transaction_id", Value.str "t2"), ("product_id", Value.str "p2")]

/-- A customer row matching `tRow`. -/
def cRow : Row :=
  [("customer_id", Value.str "c1"), ("name", Value.str "Ana")]

/-- The enriched transaction produced for `tRow` by the join example. -/
def joinT0 : EnrichedTx :=
  { base := tRow
    customer := some cRow
    store := none
    items := [{ base := iRow1, product := none }] }

/-- The initial orchestrator state. -/
def sPrimary : SourceState :=
  { currentDataSource := DataSource.azureApi, consecutiveFailures := 0, fallbackFlag := false }

/-! ## Helper lemmas -/

theorem foldl_add_map_sum {α : Type} (f : α → ℚ) (l : List α) (init : ℚ) :
    l.foldl (fun s x => s + f x) init = init + (l.map f).sum := by
  induction l generalizing init with
  | nil => simp
  | cons x xs ih => simp [ih, add_assoc]

theorem mapGet_map_eq_some {κ α : Type} [BEq κ] [LawfulBEq κ] (key : α → κ) (l : List α)
    (k : κ) (x : α) (h : mapGet (l.map fun a => (key a, a)) k = some x) :
    x ∈ l ∧ key x = k := by
  rw [mapGet] at h
  obtain ⟨p, hfind, hpx⟩ := Option.map_eq_some'.mp h
  have hmem : p ∈ (l.map fun a => (key a, a)).reverse := List.mem_of_find?_eq_some hfind
  have hpred := List.find?_some hfind
  rw [List.mem_reverse, List.mem_map] at hmem
  obtain ⟨a, ha, rfl⟩ := hmem
  cases hpx
  exact ⟨ha, by simpa using hpred⟩

theorem mapGet_map_eq_none {κ α : Type} [BEq κ] [LawfulBEq κ] (key : α → κ) (l : List α)
    (k : κ) (h : mapGet (l.map fun a => (key a, a)) k = none) :
    ∀ x ∈ l, key x ≠ k := by
  rw [mapGet, Option.map_eq_none'] at h
  intro x hx hkx
  have hmem : (key x, x) ∈ (l.map fun a => (key a, a)).reverse := by
    rw [List.mem_reverse]
    exact List.mem_map_of_mem _ hx
  have := List.find?_eq_none.mp h (key x, x) hmem
  simp [hkx] at this

theorem assocGet_cacheDelete (c : Cache) (k : String) :
    assocGet (cacheDelete c k) k = none := by
  rw [assocGet, cacheDelete, Option.map_eq_none', List.find?_eq_none]
  intro p hp
  have h2 := (List.mem_filter.mp hp).2
  simpa using h2

theorem mapSet_of_none {κ α : Type} [BEq κ] (m : List (κ × α)) (k : κ) (v : α)
    (h : assocGet m k = none) : mapSet m k v = m ++ [(k, v)] := by
  rw [mapSet, if_neg]
  intro hany
  rw [List.any_eq_true] at hany
  obtain ⟨p, hp, hpk⟩ := hany
  rw [assocGet, Option.map_eq_none', List.find?_eq_none] at h
  exact absurd hpk (by simpa using h p hp)

theorem assocGet_append_self {κ α : Type} [BEq κ] [LawfulBEq κ] (m : List (κ × α)) (k : κ)
    (v : α) (h : assocGet m k = none) : assocGet (m ++ [(k, v)]) k = some v := by
  rw [assocGet, Option.map_eq_none', List.find?_eq_none] at h
  induction m with
  | nil => simp [assocGet]
  | cons p m ih =>
    have hp : (p.1 == k) = false := by simpa using h p (by simp)
    rw [List.cons_append, assocGet, List.find?_cons, hp]
    exact ih fun q hq => h q (by simp [hq])

theorem filter_length_partition {α : Type} (p q r : α → Bool) (l : List α)
    (h : ∀ x ∈ l, (p x = true ∧ q x = false ∧ r x = false) ∨
      (p x = false ∧ q x = true ∧ r x = false) ∨
      (p x = false ∧ q x = false ∧ r x = true)) :
    (l.filter p).length + (l.filter q).length + (l.filter r).length = l.length := by
  induction l with
  | nil => simp
  | cons x xs ih =>
    have hx := h x (by simp)
    have hxs := ih fun y hy => h y (by simp [hy])
    rcases hx with ⟨h1, h2, h3⟩ | ⟨h1, h2, h3⟩ | ⟨h1, h2, h3⟩ <;>
      simp [List.filter_cons, h1, h2, h3] <;> omega

theorem take_getD_eq (l : List String) (n i : ℕ) (h : i < n) :
    (l.take n).getD i "" = l.getD i "" := by
  induction l generalizing n i with
  | nil => simp
  | cons x xs ih =>
    cases n with
    | zero => omega
    | succ n =>
      cases i with
      | zero => rfl
      | succ i => simpa [List.take_succ_cons, List.getD_cons_succ] using ih n i (by omega)

theorem buildRowAux_take (values : List String) (n : ℕ) :
    ∀ (headers : List String) (i : ℕ) (row : Row), i + headers.length ≤ n →
      buildRowAux (values.take n) i row headers = buildRowAux values i row headers := by
  intro headers
  induction headers with
  | nil => intro i row _; rfl
  | cons hd tl ih =>
    intro i row hle
    rw [buildRowAux, buildRowAux]
    have hcell : cellValue (values.take n) i = cellValue values i := by
      simp only [cellValue, take_getD_eq values n i (by simp at hle; omega)]
    rw [hcell]
    exact ih (i + 1) _ (by simp at hle ⊢; omega)

theorem primaryFailure_failures (f d : Bool) (s : SourceState) :
    (primaryFailure f d s).consecutiveFailures = s.consecutiveFailures + 1 := by
  simp only [primaryFailure]
  split <;> rfl

theorem primaryFailure_fallback (f d : Bool) (s : SourceState)
    (h : 3 ≤ s.consecutiveFailures + 1 ∨ f = true) :
    (primaryFailure f d s).currentDataSource ≠ DataSource.azureApi := by
  simp only [primaryFailure]
  rw [if_pos h]
  cases d <;> simp

theorem primaryFailure_keep (d : Bool) (s : SourceState)
    (h : s.consecutiveFailures + 1 < 3) :
    (primaryFailure false d s).currentDataSource = s.currentDataSource := by
  have hc : ¬(3 ≤ s.consecutiveFailures + 1 ∨ false = true) := by
    simp only [Bool.false_eq_true, or_false]
    omega
  simp only [primaryFailure]
  rw [if_neg hc]

/-! ## The claims -/

/-- Claim C8: for every input text that, after trimming, contains fewer
than two lines (including the empty blob and a header-only blob),
`parseCSV` returns an empty row list — and, being a total function, it
never throws. -/
theorem C8_degenerate_parse (s : String)
    (h : (splitOnChar '\n' (jsTrim s.toList)).length < 2) : parseCSV s = [] := by
  simp only [parseCSV]
  rw [if_pos h]

/-- Witness for C8 at a header-only blob. -/
theorem C8_degenerate_parse_app :
    (splitOnChar '\n' (jsTrim ("transaction_id,total_amount").toList)).length < 2 ∧
    parseCSV "transaction_id,total_amount" = [] :=
  ⟨by decide, C8_degenerate_parse "transaction_id,total_amount" (by decide)⟩

/-- Claim C9: an empty cell — including a cell absent because its line has
fewer delimited fields than the header row — is stored as the number 0;
a row/column count mismatch never raises an error: short rows are padded
(`values[index] || ''`), extra fields are ignored (iteration is over the
headers), and every data line yields exactly one row. -/
theorem C9_empty_cells_zero :
    (∀ (values : List String) (i : ℕ), values.getD i "" = "" → cellValue values i = Value.num 0) ∧
    (∀ (headers values : List String),
       buildRow headers (values.take headers.length) = buildRow headers values) ∧
    (∀ (s : String), 2 ≤ (splitOnChar '\n' (jsTrim s.toList)).length →
       (parseCSV s).length + 1 = (splitOnChar '\n' (jsTrim s.toList)).length) := by
  refine ⟨?_, ?_, ?_⟩
  · intro values i h
    have h0 : jsNumberQ "" = some 0 := by
      rw [jsNumberQ, show jsNumParse (jsTrim ("").toList) = some (false, 0, 0, 0) from rfl]
      norm_num
    simp only [cellValue, h, h0]
  · intro headers values
    rw [buildRow, buildRow]
    exact buildRowAux_take values headers.length headers 0 [] (by omega)
  · intro s h
    simp only [parseCSV]
    rw [if_neg (by omega)]
    simp only [List.length_map, List.length_drop]
    omega

/-- Witness for C9: a missing second cell parses as the number 0, and a
two-line blob with a short data row yields exactly one row. -/
theorem C9_empty_cells_zero_app :
    (["5"].getD 1 "" = "" ∧ cellValue ["5"] 1 = Value.num 0) ∧
    (2 ≤ (splitOnChar '\n' (jsTrim ("a,b\nx,").toList)).length ∧
      (parseCSV "a,b\nx,").length + 1 = (splitOnChar '\n' (jsTrim ("a,b\nx,").toList)).length) :=
  ⟨⟨rfl, C9_empty_cells_zero.1 ["5"] 1 rfl⟩,
   ⟨by decide, C9_empty_cells_zero.2.2 "a,b\nx," (by decide)⟩⟩

/-- Claim C7 (amended): the configured transport retries are 3 on every
platform, but the configured per-call timeout is 15000 ms only when the
detected platform is Netlify and 10000 ms otherwise. -/
theorem C7_transport_config_amended (envApiUrl envMode hostname : Option String) :
    (getPlatformConfig envApiUrl envMode hostname).retries = 3 ∧
    (getPlatformConfig envApiUrl envMode hostname).timeout =
      (if detectPlatform hostname = "netlify" then 15000 else 10000) := by
  refine ⟨rfl, ?_⟩
  by_cases h : detectPlatform hostname = "netlify" <;> simp [getPlatformConfig, h]

/-- Counterexample to C7 as stated: on a Vercel hostname the configured
timeout is 10000 ms, not 15 seconds. -/
theorem C7_timeout_not_uniform :
    detectPlatform (some "scout-prod.vercel.app") = "vercel" ∧
    (getPlatformConfig none none (some "scout-prod.vercel.app")).timeout = 10000 ∧
    (getPlatformConfig none none (some "scout-prod.vercel.app")).timeout ≠ 15000 :=
  ⟨rfl, rfl, by decide⟩

/-- Claim C1: from the primary state, three consecutive primary failures of
any class leave `currentDataSource` off `"azure-api"` (a single fatal-class
failure suffices, and two non-fatal failures do not), and any successful
primary call restores `currentDataSource = "azure-api"` with
`consecutiveFailures = 0`. -/
theorem C1_mode_transitions (s : SourceState)
    (hs : s.currentDataSource = DataSource.azureApi)
    (h0 : s.consecutiveFailures = 0) :
    (∀ f1 f2 f3 d1 d2 d3 : Bool,
       (primaryFailure f3 d3 (primaryFailure f2 d2 (primaryFailure f1 d1 s))).currentDataSource ≠
         DataSource.azureApi) ∧
    (∀ d : Bool, (primaryFailure true d s).currentDataSource ≠ DataSource.azureApi) ∧
    (∀ d1 d2 : Bool,
       (primaryFailure false d2 (primaryFailure false d1 s)).currentDataSource =
         DataSource.azureApi) ∧
    (∀ t : SourceState, (primarySuccess t).currentDataSource = DataSource.azureApi ∧
       (primarySuccess t).consecutiveFailures = 0) := by
  refine ⟨?_, ?_, ?_, ?_⟩
  · intro f1 f2 f3 d1 d2 d3
    apply primaryFailure_fallback
    left
    rw [primaryFailure_failures, primaryFailure_failures, h0]
  · intro d
    exact primaryFailure_fallback true d s (Or.inr rfl)
  · intro d1 d2
    rw [primaryFailure_keep _ _ (by rw [primaryFailure_failures, h0]; omega),
        primaryFailure_keep _ _ (by rw [h0]; omega), hs]
  · intro t
    exact ⟨rfl, rfl⟩

/-- Witness for C1 at the initial state: one fatal failure leaves the
primary mode, and the next success restores it. -/
theorem C1_mode_transitions_app :
    (primaryFailure true true sPrimary).currentDataSource ≠ DataSource.azureApi ∧
    (primarySuccess (primaryFailure true true sPrimary)).currentDataSource =
      DataSource.azureApi ∧
    (primarySuccess (primaryFailure true true sPrimary)).consecutiveFailures = 0 := by
  have h := C1_mode_transitions sPrimary rfl rfl
  exact ⟨h.2.1 true, (h.2.2.2 _).1, (h.2.2.2 _).2⟩

/-- Claim C4: `setFilter` on the slot at index `i` of one hierarchy assigns
that slot, nulls every slot at a larger index of the same hierarchy, and
leaves the smaller indices, the whole other hierarchy, and all six time
fields unchanged. -/
theorem C4_filter_cascade :
    (∀ (s : FilterState) (i j : Fin 4) (v : Option Value),
       geoGet (setFilter (geoKey i) v s) j =
         if j < i then geoGet s j else if j = i then v else none) ∧
    (∀ (s : FilterState) (i : Fin 4) (v : Option Value) (j : Fin 5),
       orgGet (setFilter (geoKey i) v s) j = orgGet s j) ∧
    (∀ (s : FilterState) (i : Fin 4) (v : Option Value), timeEq (setFilter (geoKey i) v s) s) ∧
    (∀ (s : FilterState) (i j : Fin 5) (v : Option Value),
       orgGet (setFilter (orgKey i) v s) j =
         if j < i then orgGet s j else if j = i then v else none) ∧
    (∀ (s : FilterState) (i : Fin 5) (v : Option Value) (j : Fin 4),
       geoGet (setFilter (orgKey i) v s) j = geoGet s j) ∧
    (∀ (s : FilterState) (i : Fin 5) (v : Option Value), timeEq (setFilter (orgKey i) v s) s) := by
  refine ⟨?_, ?_, ?_, ?_, ?_, ?_⟩
  · intro s i j v
    fin_cases i <;> fin_cases j <;> rfl
  · intro s i v j
    fin_cases i <;> fin_cases j <;> rfl
  · intro s i v
    fin_cases i <;> exact ⟨rfl, rfl, rfl, rfl, rfl, rfl⟩
  · intro s i j v
    fin_cases i <;> fin_cases j <;> rfl
  · intro s i v j
    fin_cases i <;> fin_cases j <;> rfl
  · intro s i v
    fin_cases i <;> exact ⟨rfl, rfl, rfl, rfl, rfl, rfl⟩

/-- Witness for C4: the spec's concrete cascade — from a fully populated
geography, setting `city` keeps `region`, assigns `city`, and nulls
`municipality` and `barangay` while the organization and time fields keep
their values. -/
theorem C4_filter_cascade_app :
    (setFilter FilterKey.city (some (Value.str "X"))
      { region := some (Value.str "A"), city := some (Value.str "B")
        municipality := some (Value.str "C"), barangay := some (Value.str "D")
        holding_company := some (Value.str "H"), client := none, category := none
        brand := some (Value.str "BR"), sku := none, year := some (Value.num 2025)
        quarter := none, month := none, week := none, day := none, hour := none }) =
    { region := some (Value.str "A"), city := some (Value.str "X")
      municipality := none, barangay := none
      holding_company := some (Value.str "H"), client := none, category := none
      brand := some (Value.str "BR"), sku := none, year := some (Value.num 2025)
      quarter := none, month := none, week := none, day := none, hour := none } := by
  have h := C4_filter_cascade.1
    { region := some (Value.str "A"), city := some (Value.str "B")
      municipality := some (Value.str "C"), barangay := some (Value.str "D")
      holding_company := some (Value.str "H"), client := none, category := none
      brand := some (Value.str "BR"), sku := none, year := some (Value.num 2025)
      quarter := none, month := none, week := none, day := none, hour := none }
    1 2 (some (Value.str "X"))
  rfl

/-- Claim C2: in the result of `getTransactionData`, every transaction
carries exactly the item rows whose `transaction_id` equals its own (an
empty list when none match, not an error), and its `customer`/`store`
fields hold a dimension row with the matching key, or `null` exactly when
no dimension row matches (not an error). -/
theorem C2_join_postcondition (ts is cs ss ps : List Row) (i : ℕ) (T : EnrichedTx)
    (h : (getTransactionData ts is cs ss ps)[i]? = some T) :
    (∃ t, ts[i]? = some t ∧ T.base = t) ∧
    (T.items.map (fun e => e.base) =
      is.filter (fun item => rowGet item "transaction_id" == rowGet T.base "transaction_id")) ∧
    (∀ it : Row, it ∈ T.items.map (fun e => e.base) ↔
      it ∈ is ∧ (rowGet it "transaction_id" == rowGet T.base "transaction_id") = true) ∧
    (∀ c, T.customer = some c → c ∈ cs ∧ rowGet c "customer_id" = rowGet T.base "customer_id") ∧
    (T.customer = none → ∀ c ∈ cs, rowGet c "customer_id" ≠ rowGet T.base "customer_id") ∧
    (∀ st, T.store = some st → st ∈ ss ∧ rowGet st "store_id" = rowGet T.base "store_id") ∧
    (T.store = none → ∀ st ∈ ss, rowGet st "store_id" ≠ rowGet T.base "store_id") := by
  simp only [getTransactionData, List.getElem?_map] at h
  obtain ⟨t, hts, hft⟩ := Option.map_eq_some'.mp h
  have hbase : T.base = t := by rw [← hft]
  have hcust : T.customer =
      mapGet (cs.map fun c => (rowGet c "customer_id", c)) (rowGet t "customer_id") := by
    rw [← hft]
  have hstore : T.store =
      mapGet (ss.map fun s => (rowGet s "store_id", s)) (rowGet t "store_id") := by
    rw [← hft]
  have hitems : T.items.map (fun e => e.base) =
      is.filter (fun item => rowGet item "transaction_id" == rowGet t "transaction_id") := by
    rw [← hft]
    show ((is.filter _).map _).map _ = _
    rw [List.map_map]
    exact List.map_id _
  refine ⟨⟨t, hts, hbase⟩, by rw [hbase, hitems], ?_, ?_, ?_, ?_, ?_⟩
  · intro it
    rw [hbase, hitems]
    exact List.mem_filter
  · intro c hc
    rw [hcust] at hc
    rw [hbase]
    exact mapGet_map_eq_some (fun c => rowGet c "customer_id") cs _ c hc
  · intro hc c hcc
    rw [hcust] at hc
    rw [hbase]
    exact mapGet_map_eq_none (fun c => rowGet c "customer_id") cs _ hc c hcc
  · intro st hst
    rw [hstore] at hst
    rw [hbase]
    exact mapGet_map_eq_some (fun s => rowGet s "store_id") ss _ st hst
  · intro hst st hss
    rw [hstore] at hst
    rw [hbase]
    exact mapGet_map_eq_none (fun s => rowGet s "store_id") ss _ hst st hss

/-- Witness for C2 at a one-transaction join: the matching item is attached,
the non-matching one is not, and the customer lookup succeeds. -/
theorem C2_join_postcondition_app :
    (getTransactionData [tRow] [iRow1, iRow2] [cRow] [] [])[0]? = some joinT0 ∧
    joinT0.items.map (fun e => e.base) =
      [iRow1, iRow2].filter
        (fun item => rowGet item "transaction_id" == rowGet joinT0.base "transaction_id") ∧
    (cRow ∈ [cRow] ∧ rowGet cRow "customer_id" = rowGet joinT0.base "customer_id") := by
  have h := C2_join_postcondition [tRow] [iRow1, iRow2] [cRow] [] [] 0 joinT0 (by decide)
  exact ⟨by decide, h.2.1, h.2.2.2.1 cRow (by decide)⟩

/-- Claim C5: with the cache key absent, a first `fetchCSV` performs the
network fetch and caches the parsed rows; a second call for the same
filename within the 15-minute TTL window (no intervening write) returns the
same payload and performs no network I/O. -/
theorem C5_cache_idempotence (net : String → Option String) (file text : String)
    (t0 t1 : ℚ) (c0 : Cache)
    (hmiss : assocGet c0 ("csv_" ++ file) = none)
    (hnet : net file = some text)
    (hwin : t1 - t0 < 15 * 60 * 1000) :
    (fetchCSV net file t0 c0).1 = some (parseCSV text) ∧
    (fetchCSV net file t1 (fetchCSV net file t0 c0).2.1).1 = (fetchCSV net file t0 c0).1 ∧
    (fetchCSV net file t1 (fetchCSV net file t0 c0).2.1).2.2 = false := by
  have hg0 : getFromCache c0 ("csv_" ++ file) t0 = (none, cacheDelete c0 ("csv_" ++ file)) := by
    rw [getFromCache, hmiss]
  have h1 : fetchCSV net file t0 c0 =
      (some (parseCSV text),
       setCache (cacheDelete c0 ("csv_" ++ file)) ("csv_" ++ file) (parseCSV text) 15 t0,
       true) := by
    simp only [fetchCSV, hg0, hnet]
  have hdel : assocGet (cacheDelete c0 ("csv_" ++ file)) ("csv_" ++ file) = none :=
    assocGet_cacheDelete _ _
  have hget1 :
      assocGet
        (setCache (cacheDelete c0 ("csv_" ++ file)) ("csv_" ++ file) (parseCSV text) 15 t0)
        ("csv_" ++ file) =
      some { data := parseCSV text, timestamp := t0, ttl := 15 * 60 * 1000 } := by
    rw [setCache, mapSet_of_none _ _ _ hdel]
    exact assocGet_append_self _ _ _ hdel
  have hg1 :
      getFromCache
        (setCache (cacheDelete c0 ("csv_" ++ file)) ("csv_" ++ file) (parseCSV text) 15 t0)
        ("csv_" ++ file) t1 =
      (some (parseCSV text),
       setCache (cacheDelete c0 ("csv_" ++ file)) ("csv_" ++ file) (parseCSV text) 15 t0) := by
    rw [getFromCache, hget1]
    exact if_pos hwin
  have h2 : fetchCSV net file t1 (fetchCSV net file t0 c0).2.1 =
      (some (parseCSV text),
       setCache (cacheDelete c0 ("csv_" ++ file)) ("csv_" ++ file) (parseCSV text) 15 t0,
       false) := by
    rw [h1]
    simp only [fetchCSV, hg1]
  refine ⟨by rw [h1], by rw [h2, h1], by rw [h2]⟩

/-- Witness for C5 with a concrete blob, empty initial cache, and calls at
times 0 and 10 ms. -/
theorem C5_cache_idempotence_app :
    (fetchCSV netW "transactions.csv" 0 []).1 = some (parseCSV "a,b\n1,2") ∧
    (fetchCSV netW "transactions.csv" 10 (fetchCSV netW "transactions.csv" 0 []).2.1).1 =
      (fetchCSV netW "transactions.csv" 0 []).1 ∧
    (fetchCSV netW "transactions.csv" 10 (fetchCSV netW "transactions.csv" 0 []).2.1).2.2 =
      false :=
  C5_cache_idempotence netW "transactions.csv" "a,b\n1,2" 0 10 [] rfl rfl (by norm_num)

theorem dec_true {P : Prop} [Decidable P] (h : P) : decide P = true := by
  simp [h]

theorem dec_false {P : Prop} [Decidable P] (h : ¬P) : decide P = false := by
  simp [h]

theorem dec_and_true {A B : Prop} [Decidable A] [Decidable B] (hA : A) (hB : B) :
    (decide A && decide B) = true := by
  simp [hA, hB]

theorem dec_and_false {A B : Prop} [Decidable A] [Decidable B] (h : ¬(A ∧ B)) :
    (decide A && decide B) = false := by
  by_cases hA : A
  · have hB : ¬B := fun hB => h ⟨hA, hB⟩
    simp [hB]
  · simp [hA]

/-- Claim C3 (amended): on a non-empty enriched transaction list,
`total_sales` is the sum of the amounts rounded to the nearest integer
(`Math.round`), `transaction_count` is the row count, `avg_basket_size` the
sum over the count rounded to 2 decimals, and `growth_rate` the
recent-versus-older half percentage (0 when the older revenue is not
positive) rounded to 2 decimals, halving the timestamp-descending sort at
`floor(n/2)`. -/
theorem C3_kpi_amended (getTime : Option Value → ℚ) (txs : List EnrichedTx) (h : txs ≠ []) :
    ∃ K, calculateKPIMetrics getTime txs = some K ∧
      K.total_sales = (jsRound ((txs.map txAmount).sum) : ℚ) ∧
      K.transaction_count = txs.length ∧
      K.avg_basket_size = round2 ((txs.map txAmount).sum / (txs.length : ℚ)) ∧
      K.growth_rate = round2
        (if 0 < (((sortedByDateDesc getTime txs).drop (txs.length / 2)).map txAmount).sum then
          ((((sortedByDateDesc getTime txs).take (txs.length / 2)).map txAmount).sum -
              (((sortedByDateDesc getTime txs).drop (txs.length / 2)).map txAmount).sum) /
            (((sortedByDateDesc getTime txs).drop (txs.length / 2)).map txAmount).sum * 100
        else 0) := by
  have hlen : ¬ txs.length = 0 := fun hl => h (by simpa using hl)
  have hsum : ∀ l : List EnrichedTx,
      (l.map txAmount).sum = l.foldl (fun sum t => sum + txAmount t) 0 := fun l => by
    rw [foldl_add_map_sum, zero_add]
  rw [calculateKPIMetrics, if_neg hlen]
  refine ⟨_, rfl, ?_, rfl, ?_, ?_⟩
  · rw [hsum txs]
  · rw [hsum txs]
  · rw [hsum ((sortedByDateDesc getTime txs).drop (txs.length / 2)),
        hsum ((sortedByDateDesc getTime txs).take (txs.length / 2))]

/-- Counterexample to C3 as stated: a fractional amount shows `total_sales`
is the rounded sum, not the sum (input: one transaction of amount 1/2); and
on the spec's own 100/200/300/400 vector the reported growth rate is the
two-decimal rounding 133.33, not the exact (700−300)/300×100 = 400/3. -/
theorem C3_rounding_counterexample :
    (∃ K, calculateKPIMetrics dateNumVal txHalf = some K ∧
       K.total_sales = 1 ∧ (txHalf.map txAmount).sum = 1 / 2 ∧ (1 : ℚ) ≠ 1 / 2) ∧
    (∃ K, calculateKPIMetrics dateNumVal txKpiExample = some K ∧
       K.growth_rate = 13333 / 100 ∧ (13333 / 100 : ℚ) ≠ (700 - 300) / 300 * 100) := by
  have e1 : calculateKPIMetrics dateNumVal txHalf =
      some { total_sales := 1, transaction_count := 1, avg_basket_size := 1 / 2,
             growth_rate := -100 } := by
    rw [calculateKPIMetrics, if_neg (by simp [txHalf])]
    rw [show sortedByDateDesc dateNumVal txHalf = [mkTx (1 / 2) 1] from rfl]
    norm_num [txHalf, txAmount, mkTx, rowGet, toNum0, jsRound, round2, Int.floor_eq_iff]
  have e2 : calculateKPIMetrics dateNumVal txKpiExample =
      some { total_sales := 1000, transaction_count := 4, avg_basket_size := 250,
             growth_rate := 13333 / 100 } := by
    rw [calculateKPIMetrics, if_neg (by simp [txKpiExample])]
    rw [show sortedByDateDesc dateNumVal txKpiExample
        = [mkTx 400 4, mkTx 300 3, mkTx 200 2, mkTx 100 1] from rfl]
    norm_num [txKpiExample, txAmount, mkTx, rowGet, toNum0, jsRound, round2, Int.floor_eq_iff]
  constructor
  · exact ⟨_, e1, rfl, by norm_num [txHalf, txAmount, mkTx, rowGet, toNum0], by norm_num⟩
  · exact ⟨_, e2, rfl, by norm_num⟩

/-- Witness for C3 at the spec's KPI vector: total 1000, count 4, average
basket 250.00, growth 133.33. -/
theorem C3_kpi_amended_app :
    calculateKPIMetrics dateNumVal txKpiExample =
      some { total_sales := 1000, transaction_count := 4, avg_basket_size := 250,
             growth_rate := 13333 / 100 } ∧
    (∃ K, calculateKPIMetrics dateNumVal txKpiExample = some K ∧ K.transaction_count = 4) := by
  obtain ⟨K, hK, _, hcount, _, _⟩ := C3_kpi_amended dateNumVal txKpiExample (by simp [txKpiExample])
  constructor
  · rw [calculateKPIMetrics, if_neg (by simp [txKpiExample])]
    rw [show sortedByDateDesc dateNumVal txKpiExample
        = [mkTx 400 4, mkTx 300 3, mkTx 200 2, mkTx 100 1] from rfl]
    norm_num [txKpiExample, txAmount, mkTx, rowGet, toNum0, jsRound, round2, Int.floor_eq_iff]
  · exact ⟨K, hK, by rw [hcount]; rfl⟩

/-- Claim C6 (amended): provided the average spend is positive, every
customer of the grouped list falls in exactly one of the three segments
with the documented boundaries (spend exactly `avg` is Occasional, spend
exactly `2*avg` is Regular), and the three segment counts sum to the number
of customers. -/
theorem C6_segmentation_amended (txs : List EnrichedTx) (_hne : txs ≠ [])
    (havg : 0 < avgSpendOf txs) :
    (premiumCount txs + regularCount txs + occasionalCount txs = (customersOf txs).length) ∧
    (∀ c ∈ customersOf txs,
      (avgSpendOf txs * 2 < c.totalSpend ∧
        ¬(avgSpendOf txs < c.totalSpend ∧ c.totalSpend ≤ avgSpendOf txs * 2) ∧
        ¬c.totalSpend ≤ avgSpendOf txs) ∨
      (¬avgSpendOf txs * 2 < c.totalSpend ∧
        (avgSpendOf txs < c.totalSpend ∧ c.totalSpend ≤ avgSpendOf txs * 2) ∧
        ¬c.totalSpend ≤ avgSpendOf txs) ∨
      (¬avgSpendOf txs * 2 < c.totalSpend ∧
        ¬(avgSpendOf txs < c.totalSpend ∧ c.totalSpend ≤ avgSpendOf txs * 2) ∧
        c.totalSpend ≤ avgSpendOf txs)) ∧
    (∀ c ∈ customersOf txs, c.totalSpend = avgSpendOf txs →
      (c.totalSpend ≤ avgSpendOf txs ∧ ¬avgSpendOf txs < c.totalSpend)) ∧
    (∀ c ∈ customersOf txs, c.totalSpend = 2 * avgSpendOf txs →
      (avgSpendOf txs < c.totalSpend ∧ c.totalSpend ≤ avgSpendOf txs * 2 ∧
        ¬avgSpendOf txs * 2 < c.totalSpend)) := by
  have tri : ∀ c ∈ customersOf txs,
      (avgSpendOf txs * 2 < c.totalSpend ∧
        ¬(avgSpendOf txs < c.totalSpend ∧ c.totalSpend ≤ avgSpendOf txs * 2) ∧
        ¬c.totalSpend ≤ avgSpendOf txs) ∨
      (¬avgSpendOf txs * 2 < c.totalSpend ∧
        (avgSpendOf txs < c.totalSpend ∧ c.totalSpend ≤ avgSpendOf txs * 2) ∧
        ¬c.totalSpend ≤ avgSpendOf txs) ∨
      (¬avgSpendOf txs * 2 < c.totalSpend ∧
        ¬(avgSpendOf txs < c.totalSpend ∧ c.totalSpend ≤ avgSpendOf txs * 2) ∧
        c.totalSpend ≤ avgSpendOf txs) := by
    intro c _
    rcases le_or_lt c.totalSpend (avgSpendOf txs) with hle | hgt
    · exact Or.inr (Or.inr
        ⟨by linarith, fun hq => by linarith [hq.1], hle⟩)
    · rcases le_or_lt c.totalSpend (avgSpendOf txs * 2) with hle2 | hgt2
      · exact Or.inr (Or.inl ⟨not_lt.mpr hle2, ⟨hgt, hle2⟩, not_le.mpr hgt⟩)
      · exact Or.inl ⟨hgt2, fun hq => by linarith [hq.2], not_le.mpr (by linarith)⟩
  refine ⟨?_, tri, ?_, ?_⟩
  · rw [premiumCount, regularCount, occasionalCount]
    apply filter_length_partition
    intro x hx
    rcases tri x hx with ⟨h1, h2, h3⟩ | ⟨h1, h2, h3⟩ | ⟨h1, h2, h3⟩
    · exact Or.inl ⟨dec_true h1, dec_and_false h2, dec_false h3⟩
    · exact Or.inr (Or.inl ⟨dec_false h1, dec_and_true h2.1 h2.2, dec_false h3⟩)
    · exact Or.inr (Or.inr ⟨dec_false h1, dec_and_false h2, dec_true h3⟩)
  · intro c _ he
    exact ⟨le_of_eq he, by rw [he]; exact lt_irrefl _⟩
  · intro c _ he
    refine ⟨by rw [he]; linarith, by rw [he]; linarith, ?_⟩
    rw [he]
    intro hlt
    linarith

/-- Counterexample to C6 as stated: with customer spends -15 and -5 the
average is -10 and the three segment counts sum to 3 over 2 customers (the
spend -15 is both Premium and Occasional). -/
theorem C6_partition_counterexample :
    premiumCount txNegCustomers + regularCount txNegCustomers +
      occasionalCount txNegCustomers = 3 ∧
    (customersOf txNegCustomers).length = 2 := by
  have hc : customersOf txNegCustomers =
      [{ totalSpend := 0 + -15, transactionCount := 1, customer := none },
       { totalSpend := 0 + -5, transactionCount := 1, customer := none }] := by rfl
  have ha : avgSpendOf txNegCustomers = -10 := by
    rw [avgSpendOf, hc]
    norm_num
  have hp : premiumCount txNegCustomers = 2 := by
    rw [premiumCount, hc]
    norm_num [ha, List.filter]
  have hr : regularCount txNegCustomers = 0 := by
    rw [regularCount, hc]
    norm_num [ha, List.filter]
  have ho : occasionalCount txNegCustomers = 1 := by
    rw [occasionalCount, hc]
    norm_num [ha, List.filter]
  refine ⟨by rw [hp, hr, ho], ?_⟩
  rw [hc]
  rfl

/-- Witness for C6 with spends 10 and 30 (average 20): the partition counts
sum to the customer total. -/
theorem C6_segmentation_amended_app :
    premiumCount txTwoCustomers + regularCount txTwoCustomers +
      occasionalCount txTwoCustomers = (customersOf txTwoCustomers).length ∧
    0 < avgSpendOf txTwoCustomers := by
  have hc : customersOf txTwoCustomers =
      [{ totalSpend := 0 + 10, transactionCount := 1, customer := none },
       { totalSpend := 0 + 30, transactionCount := 1, customer := none }] := by rfl
  have ha : 0 < avgSpendOf txTwoCustomers := by
    rw [avgSpendOf, hc]
    norm_num
  exact ⟨(C6_segmentation_amended txTwoCustomers (by simp [txTwoCustomers]) ha).1, ha⟩

/-- Claim C10: on the one-customer input the Premium and Regular segments
are empty; their reported `avgSpend` is NaN (`Math.round(0/0)`, modelled
`none`) while their percentage is 0; the code guards neither division. -/
theorem C10_nan_segment_average :
    txOneCustomer ≠ [] ∧
    premiumCount txOneCustomer = 0 ∧
    getCustomerBehavior txOneCustomer =
      some { segments :=
              [ { segment := "Premium Buyers", percentage := 0, avgSpend := none }
              , { segment := "Regular Customers", percentage := 0, avgSpend := none }
              , { segment := "Occasional Shoppers", percentage := 100, avgSpend := some 100 } ]
             totalCustomers := 1
             avgSpend := 100 } := by
  have hc : customersOf txOneCustomer =
      [{ totalSpend := 0 + 100, transactionCount := 1, customer := none }] := by rfl
  have ha : avgSpendOf txOneCustomer = 100 := by
    rw [avgSpendOf, hc]
    norm_num
  have hp : premiumCount txOneCustomer = 0 := by
    rw [premiumCount, hc]
    norm_num [ha, List.filter]
  have hr : regularCount txOneCustomer = 0 := by
    rw [regularCount, hc]
    norm_num [ha, List.filter]
  have ho : occasionalCount txOneCustomer = 1 := by
    rw [occasionalCount, hc]
    norm_num [ha, List.filter]
  have hlen : (customersOf txOneCustomer).length = 1 := by
    rw [hc]
    rfl
  refine ⟨by simp [txOneCustomer], hp, ?_⟩
  rw [getCustomerBehavior, if_neg (by simp [txOneCustomer])]
  rw [hp, hr, ho, hlen, ha]
  simp only [segmentAvg, segmentPercentage, hc, ha]
  norm_num [jsRound, List.filter, Int.floor_eq_iff]

end Scout
